import Mathlib

/-!
Verification of the HTTP/2 stream-splitter fragment
(`http2_stream_splitter_impl.cc`) and the PDF tokenizer
(`js_norm/pdf_tokenizer.l`) of this snort3 fragment.

The C++ is shallowly embedded: bytes are `Nat` below 256, buffers are
`List Nat`, the per-direction `Http2FlowData` fields used by the splitter
become a `FlowState` record, and each C++ function becomes an executable
Lean function of the same name.  `uint32_t` counters that are only ever
incremented are reduced modulo 2^32 where the C++ could wrap; counters
that the code branches on are kept exact because the code guards every
subtraction on the paths reachable from the initial state (noted inline).
-/

namespace H2FS

/-- HTTP/2 frame header length, `FRAME_HEADER_LENGTH` (9 octets). -/
def FRAME_HEADER_LENGTH : Nat := 9

/-- Modelled from the spec: `MAX_OCTETS` is an implementation-defined soft
ceiling (~63 KiB) on non-DATA frame size; its definition lives in a header
that is not part of the fragment. -/
def MAX_OCTETS : Nat := 63 * 1024

/-- Frame type DATA (0). -/
def FT_DATA : Nat := 0
/-- Frame type HEADERS (1). -/
def FT_HEADERS : Nat := 1
/-- Frame type CONTINUATION (9). -/
def FT_CONTINUATION : Nat := 9
/-- Flag END_HEADERS (0x04). -/
def END_HEADERS : Nat := 4
/-- Flag PADDED (0x08). -/
def PADDED : Nat := 8

/-- `StreamSplitter::Status` values used by the splitter. -/
inductive Status where
  | search
  | flush
  | abort
deriving DecidableEq, Repr

/-- `ValidationResult` of `validate_preface`. -/
inductive ValidationResult where
  | V_GOOD
  | V_BAD
  | V_TBD
deriving DecidableEq, Repr

/-- Events recorded through `session_data->events[source_id]->create_event`. -/
inductive Event where
  | EVENT_FRAME_SEQUENCE
  | EVENT_MISSING_CONTINUATION
  | EVENT_UNEXPECTED_CONTINUATION
  | EVENT_PREFACE_MATCH_FAILURE
deriving DecidableEq, Repr

/-- Infractions accumulated through `*session_data->infractions[source_id]`. -/
inductive Infraction where
  | INF_FRAME_SEQUENCE
  | INF_MISSING_CONTINUATION
  | INF_UNEXPECTED_CONTINUATION
deriving DecidableEq, Repr

/-- The per-direction fields of `Http2FlowData` read or written by
`implement_scan`, `non_data_scan`, `data_scan` and `implement_reassemble`.
One value of this record is one direction of one session. -/
structure FlowState where
  preface : Bool
  payload_discard : Bool
  scan_octets_seen : Nat
  scan_frame_header : List Nat
  scan_remaining_frame_octets : Nat
  continuation_expected : Bool
  mid_data_frame : Bool
  data_processing : Bool
  current_stream : Nat
  frame_type : Nat
  num_frame_headers : Nat
  total_bytes_in_split : Nat
  octets_before_first_header : Nat
  infractions : List Infraction
  events : List Event
  frame_header_size : Nat
  frame_header : List Nat
  frame_header_offset : Nat
  frame_data_size : Nat
  frame_data : List Nat
  frame_data_offset : Nat
  remaining_frame_octets : Nat
  padding_octets_in_frame : Nat
  get_padding_len : Bool
deriving DecidableEq, Repr

/-- A freshly-constructed direction: `Http2FlowData` zero-initialises its
fields; `preface` starts true for the client-to-server direction. -/
def initial_flow_state : FlowState where
  preface := true
  payload_discard := false
  scan_octets_seen := 0
  scan_frame_header := List.replicate 9 0
  scan_remaining_frame_octets := 0
  continuation_expected := false
  mid_data_frame := false
  data_processing := false
  current_stream := 0
  frame_type := 0
  num_frame_headers := 0
  total_bytes_in_split := 0
  octets_before_first_header := 0
  infractions := []
  events := []
  frame_header_size := 0
  frame_header := []
  frame_header_offset := 0
  frame_data_size := 0
  frame_data := []
  frame_data_offset := 0
  remaining_frame_octets := 0
  padding_octets_in_frame := 0
  get_padding_len := false

/-- `memcpy(buf + pos, src, src.length)` on a byte vector. -/
def list_overwrite (buf : List Nat) (pos : Nat) (src : List Nat) : List Nat :=
  buf.take pos ++ src ++ buf.drop (pos + src.length)

/-- Unsigned 32-bit subtraction (two's-complement wraparound), for the
`uint32_t` subtractions in `implement_reassemble` that crafted input could
drive below zero. -/
def u32sub (a b : Nat) : Nat := (a % 4294967296 + 4294967296 - b % 4294967296) % 4294967296

/-- Modelled from the spec: `get_frame_length` of `http2_utils` (header not in
the fragment) decodes the first three header octets as a 24-bit big-endian
payload length. -/
def get_frame_length (hdr : List Nat) : Nat :=
  hdr.getD 0 0 * 65536 + hdr.getD 1 0 * 256 + hdr.getD 2 0

/-- Modelled from the spec: `get_frame_type` reads the fourth header octet. -/
def get_frame_type (hdr : List Nat) : Nat := hdr.getD 3 0

/-- Modelled from the spec: `get_frame_flags` reads the fifth header octet. -/
def get_frame_flags (hdr : List Nat) : Nat := hdr.getD 4 0

/-- Modelled from the spec: `get_stream_id` reads the last four header octets
as reserved bit plus 31-bit big-endian stream id. -/
def get_stream_id (hdr : List Nat) : Nat :=
  (hdr.getD 5 0 % 128) * 16777216 + hdr.getD 6 0 * 65536 + hdr.getD 7 0 * 256 + hdr.getD 8 0

/-- The 24-octet connection preface
`PRI * HTTP/2.0\r\n\r\nSM\r\n\r\n` (`connection_prefix` in
`validate_preface`). -/
def connection_prefix_bytes : List Nat :=
  [80, 82, 73, 32, 42, 32, 72, 84, 84, 80, 47, 50, 46, 48, 13, 10, 13, 10, 83, 77, 13, 10, 13, 10]

/-- `validate_preface(data, length, octets_seen)`: compare the incoming
bytes against the connection prefix starting at `octets_seen`.  `count` is
the number of octets of this chunk that lie inside the 24-octet window;
`memcmp` succeeds iff all of them agree with the prefix. -/
def validate_preface (data : List Nat) (length octets_seen : Nat) : ValidationResult :=
  let count := if octets_seen + length < 24 then length else 24 - octets_seen
  if (List.range count).any
      (fun i => data.getD i 0 != connection_prefix_bytes.getD (octets_seen + i) 0) then
    .V_BAD
  else if octets_seen + length < 24 then
    .V_TBD
  else
    .V_GOOD

/-- `data_scan`: DATA-frame scanning.  Modelled from the spec: the stream
table (`find_stream`) and the per-stream `Http2DataCutter` are external
collaborators absent from the fragment, so no direction of this model ever
has an established stream; `data_scan` then takes its first branch, records
`INF_FRAME_SEQUENCE` / `EVENT_FRAME_SEQUENCE` and aborts. -/
def data_scan (st : FlowState) (fo data_offset : Nat) : Status × Nat × Nat × FlowState :=
  (.abort, fo, data_offset,
    { st with infractions := st.infractions ++ [.INF_FRAME_SEQUENCE],
              events := st.events ++ [.EVENT_FRAME_SEQUENCE] })

/-- `non_data_scan(session_data, length, flush_offset, source_id,
frame_length, type, frame_flags, data_offset)`.  The result packs
`(status, *flush_offset, data_offset, session_data)`.  The subtraction
`length - data_offset` is exact: `implement_scan` only calls with
`data_offset ≤ length`, and `scan_remaining_frame_octets` is only reduced
when it exceeds `length - data_offset`. -/
def non_data_scan (st : FlowState) (length fo frame_length type frame_flags data_offset : Nat) :
    Status × Nat × Nat × FlowState :=
  -- FIXIT-E - temporary. Will force data frame flush instead
  if st.data_processing then (.abort, fo, data_offset, st)
  else if st.scan_remaining_frame_octets = 0 ∧ st.continuation_expected ∧ type ≠ FT_CONTINUATION then
    (.abort, fo, data_offset,
      { st with infractions := st.infractions ++ [.INF_MISSING_CONTINUATION],
                events := st.events ++ [.EVENT_MISSING_CONTINUATION] })
  else if st.scan_remaining_frame_octets = 0 ∧ frame_length + FRAME_HEADER_LENGTH > MAX_OCTETS then
    -- FIXIT-M long non-data frame needs to be supported
    (.abort, fo, data_offset, st)
  else
    -- Compute frame section length once per frame
    let st := if st.scan_remaining_frame_octets = 0 then
        { st with scan_remaining_frame_octets := frame_length,
                  total_bytes_in_split :=
                    (st.total_bytes_in_split + FRAME_HEADER_LENGTH + frame_length) % 4294967296 }
      else st
    -- If we don't have the full frame, keep scanning
    if length - data_offset < st.scan_remaining_frame_octets then
      (.search, fo, length,
        { st with scan_remaining_frame_octets :=
            st.scan_remaining_frame_octets - (length - data_offset) })
    else
      -- Have the full frame
      let (status, st) :=
        if type = FT_HEADERS then
          if frame_flags &&& END_HEADERS = 0 then
            (Status.search, { st with continuation_expected := true })
          else (Status.flush, st)
        else if type = FT_CONTINUATION then
          if st.continuation_expected then
            if frame_flags &&& END_HEADERS = 0 then (Status.search, st)
            else
              -- continuation frame ending headers
              (Status.flush, { st with continuation_expected := false })
          else
            -- FIXIT-M CONTINUATION frames can also follow PUSH_PROMISE frames
            (Status.abort,
              { st with infractions := st.infractions ++ [.INF_UNEXPECTED_CONTINUATION],
                        events := st.events ++ [.EVENT_UNEXPECTED_CONTINUATION] })
        else (Status.flush, st)
      let data_offset := data_offset + st.scan_remaining_frame_octets
      (status, data_offset, data_offset,
        { st with scan_octets_seen := 0, scan_remaining_frame_octets := 0 })

/-- The frame-header accumulation block of `implement_scan` (bump
`num_frame_headers` when a new frame starts, then copy up to
`FRAME_HEADER_LENGTH - scan_octets_seen` octets of the chunk into
`scan_frame_header`).  Returns the updated state and `data_offset`. -/
def scan_header_stage (data : List Nat) (st : FlowState) (data_offset : Nat) :
    FlowState × Nat :=
  let st := if st.scan_octets_seen = 0 then
      -- Scanning a new frame
      { st with num_frame_headers := (st.num_frame_headers + 1) % 4294967296 }
    else st
  -- The first nine bytes are the frame header, possibly split over chunks.
  let remaining_header := FRAME_HEADER_LENGTH - st.scan_octets_seen
  let remaining_header_in_data := min remaining_header (data.length - data_offset)
  ({ st with
      scan_frame_header := list_overwrite st.scan_frame_header st.scan_octets_seen
        ((data.drop data_offset).take remaining_header_in_data),
      scan_octets_seen := st.scan_octets_seen + remaining_header_in_data },
   data_offset + remaining_header_in_data)

/-- The full-header part of an `implement_scan` loop iteration: decode
length, type and flags from the completed `scan_frame_header`, record
`frame_type` and `current_stream`, and dispatch to `data_scan` for DATA
frames or `non_data_scan` otherwise. -/
def scan_frame_dispatch (data : List Nat) (st : FlowState) (fo data_offset : Nat) :
    Status × Nat × Nat × FlowState :=
  let hdr := st.scan_frame_header
  let st2 := { st with frame_type := get_frame_type hdr,
                       current_stream := get_stream_id hdr }
  if get_frame_type hdr = FT_DATA then data_scan st2 fo data_offset
  else non_data_scan st2 data.length fo (get_frame_length hdr)
    (get_frame_type hdr) (get_frame_flags hdr) data_offset

/-- The do-while loop of `implement_scan`'s frame branch.  `fuel` bounds the
iteration count; any fuel of at least `2 * data.length + 2` is enough, since
every iteration that neither returns nor exhausts the chunk consumes at
least one octet (at most one initial iteration only drains a carried-over
complete header).  The result packs `(status, *flush_offset, session_data)`. -/
def scan_loop (data : List Nat) : Nat → FlowState → Nat → Nat → Status × Nat × FlowState
  | 0, st, fo, _data_offset => (.search, fo, st)
  | fuel + 1, st, fo, data_offset =>
    if st.mid_data_frame then
      -- Continuation of ongoing data frame: delegated to the external
      -- Http2DataCutter; without it (see `data_scan`) the flag is never set.
      (.abort, fo, st)
    else
      -- Frame with header
      let p := scan_header_stage data st data_offset
      if p.1.scan_octets_seen < FRAME_HEADER_LENGTH then
        (.search, fo, p.1)
      else
        let r := scan_frame_dispatch data p.1 fo p.2
        if r.1 = Status.search ∧ r.2.2.1 < data.length then
          scan_loop data fuel r.2.2.2 r.2.1 r.2.2.1
        else
          (r.1, r.2.1, r.2.2.2)

/-- `implement_scan(session_data, data, length, flush_offset, source_id)`.
The result packs `(status, *flush_offset, session_data)`; `*flush_offset`
is meaningful on `flush` (the frame branch initialises it to 0). -/
def implement_scan (st : FlowState) (data : List Nat) : Status × Nat × FlowState :=
  if st.preface then
    -- 24-byte preface, not a real frame, no frame header
    match validate_preface data data.length st.scan_octets_seen with
    | .V_GOOD =>
      (.flush, 24 - st.scan_octets_seen,
        { st with preface := false, payload_discard := true, scan_octets_seen := 0 })
    | .V_BAD =>
      (.abort, 0, { st with events := st.events ++ [.EVENT_PREFACE_MATCH_FAILURE] })
    | .V_TBD =>
      (.search, 0, { st with scan_octets_seen := st.scan_octets_seen + data.length })
  else
    scan_loop data (2 * data.length + 2)
      { st with octets_before_first_header := 0 } 0 0

/-- The inner do-while of `implement_reassemble`'s non-DATA branch.  `fuel`
bounds iterations; `data.length + 1` is enough because every iteration that
does not break copies at least one header octet.  `uint32_t` subtractions
that adversarial input could underflow use `u32sub`. -/
def reassemble_loop (data : List Nat) : Nat → FlowState → Nat → FlowState
  | 0, st, _data_offset => st
  | fuel + 1, st, data_offset =>
    let len := data.length
    -- Read the padding length if necessary
    let (st, data_offset) :=
      if st.get_padding_len then
        ({ st with get_padding_len := false,
                   padding_octets_in_frame := data.getD data_offset 0,
                   remaining_frame_octets := u32sub st.remaining_frame_octets 1,
                   -- Subtract the padding and padding length from the frame data size
                   frame_data_size := u32sub st.frame_data_size (data.getD data_offset 0 + 1) },
         data_offset + 1)
      else (st, data_offset)
    -- Copy data into the frame buffer until we run out of data or reach the
    -- end of the current frame's data
    let remaining_frame_payload := u32sub st.remaining_frame_octets st.padding_octets_in_frame
    let octets_to_copy := min remaining_frame_payload (len - data_offset)
    let st := { st with
      frame_data := list_overwrite st.frame_data st.frame_data_offset
        ((data.drop data_offset).take octets_to_copy),
      frame_data_offset := st.frame_data_offset + octets_to_copy,
      remaining_frame_octets := u32sub st.remaining_frame_octets octets_to_copy }
    let data_offset := data_offset + octets_to_copy
    if data_offset = len then st
    else
      -- Skip over any padding
      let padding_bytes_to_skip := min st.padding_octets_in_frame (len - data_offset)
      let st := { st with
        remaining_frame_octets := u32sub st.remaining_frame_octets padding_bytes_to_skip }
      let data_offset := data_offset + padding_bytes_to_skip
      if data_offset = len then st
      else
        -- Copy headers
        let remaining_frame_header :=
          FRAME_HEADER_LENGTH - st.frame_header_offset % FRAME_HEADER_LENGTH
        let octets_to_copy := min remaining_frame_header (len - data_offset)
        let st := { st with
          frame_header := list_overwrite st.frame_header st.frame_header_offset
            ((data.drop data_offset).take octets_to_copy),
          frame_header_offset := st.frame_header_offset + octets_to_copy }
        let data_offset := data_offset + octets_to_copy
        if st.frame_header_offset % FRAME_HEADER_LENGTH ≠ 0 then st
        else
          -- If we just finished copying a header, parse and update frame variables
          let parsed_length := get_frame_length
            (st.frame_header.drop (st.frame_header_offset - FRAME_HEADER_LENGTH))
          let st := { st with remaining_frame_octets := parsed_length }
          -- the flags are read from the SCAN header buffer
          -- (`scan_frame_header`), not from the header just copied
          let frame_flags := get_frame_flags st.scan_frame_header
          let st := if frame_flags &&& PADDED ≠ 0 then { st with get_padding_len := true } else st
          if data_offset < len then reassemble_loop data fuel st data_offset else st

/-- `implement_reassemble(session_data, total, offset, data, len, flags,
source_id)`.  `pdu_tail` is the `PKT_PDU_TAIL` bit of `flags` (the other
bits are unused).  The returned buffer models `frame_buf.data`: `none` for
`nullptr`, `some []` for the zero-length non-null sentinel returned on the
PDU tail.  The DATA branch delegates to the external `Http2DataCutter`
(absent from the fragment, see `data_scan`), so it only runs the shared
prologue and epilogue here. -/
def implement_reassemble (st : FlowState) (total offset : Nat) (data : List Nat)
    (pdu_tail : Bool) : Option (List Nat) × FlowState :=
  let st :=
    if offset = 0 then
      -- first reassemble() for this frame: allocate the header buffer
      let size := (FRAME_HEADER_LENGTH * st.num_frame_headers) % 4294967296
      { st with frame_header_size := size,
                frame_header := List.replicate size 0,
                frame_header_offset := 0 }
    else st
  let st :=
    if st.frame_type = FT_DATA then st
    else
      let st :=
        if offset = 0 then
          -- first reassemble() for this frame: allocate the data buffer
          let size := u32sub total st.frame_header_size
          { st with frame_data_size := size,
                    frame_data := List.replicate size 0,
                    frame_data_offset := 0,
                    remaining_frame_octets := st.octets_before_first_header,
                    padding_octets_in_frame := 0 }
        else st
      let st := reassemble_loop data (data.length + 1) st 0
      { st with frame_type := get_frame_type st.frame_header }
  if pdu_tail then
    (some [],
      { st with total_bytes_in_split := 0, num_frame_headers := 0, scan_octets_seen := 0 })
  else (none, st)

/-- One record per `scan` call made by the driver `drive`. -/
structure Call where
  status : Status
  flush_offset : Nat
  chunk_len : Nat
deriving DecidableEq, Repr

/-- The caller protocol of the splitter: `stream` is the undelivered byte
stream and `cuts` the chunk sizes the transport happens to produce.  Each
call feeds the next chunk to `implement_scan`; on `search` the whole chunk
is consumed (held by the stream layer), on `flush` the caller resumes at
`chunk[flush_offset..]`, on `abort` the direction is torn down.  Returns
the call trace and the unconsumed remainder of `stream`. -/
def drive (st : FlowState) (stream : List Nat) : List Nat → List Call × List Nat
  | [] => ([], stream)
  | n :: cuts =>
    let chunk := stream.take n
    let r := implement_scan st chunk
    match r.1 with
    | .search =>
      let rest := drive r.2.2 (stream.drop chunk.length) cuts
      (⟨.search, r.2.1, chunk.length⟩ :: rest.1, rest.2)
    | .flush =>
      let rest := drive r.2.2 (stream.drop r.2.1) cuts
      (⟨.flush, r.2.1, chunk.length⟩ :: rest.1, rest.2)
    | .abort => ([⟨.abort, r.2.1, chunk.length⟩], stream)

/-- Sum of the `*flush_offset` values returned across all `flush` verdicts. -/
def sum_flush_offsets (tr : List Call) : Nat :=
  (tr.map (fun c => if c.status = .flush then c.flush_offset else 0)).sum

/-- Sum of the lengths of the chunks absorbed by `search` verdicts. -/
def sum_search_lens (tr : List Call) : Nat :=
  (tr.map (fun c => if c.status = .search then c.chunk_len else 0)).sum

/-- Final state of a direction after an arbitrary sequence of `scan` calls. -/
def run_scan (st : FlowState) (chunks : List (List Nat)) : FlowState :=
  chunks.foldl (fun s c => (implement_scan s c).2.2) st

/-- The bytes of `c3_pdu`: a HEADERS frame (length 4, flags PADDED, stream
1) whose payload is pad length 2, one fragment octet `0xAA`, and padding
`0xBB 0xCC`, followed by a CONTINUATION frame (length 1, flags END_HEADERS,
stream 1) with fragment octet `0xDD`. -/
def c3_pdu : List Nat :=
  [0, 0, 4, 1, 8, 0, 0, 0, 1, 2, 0xAA, 0xBB, 0xCC, 0, 0, 1, 9, 4, 0, 0, 0, 1, 0xDD]

/-! ### Scanner bounds and invariants -/

/-- `scan_header_stage` never accumulates more than 9 header octets, never
advances past the chunk, and leaves `preface` and `mid_data_frame` alone. -/
theorem scan_header_stage_spec (data : List Nat) (st : FlowState) (off : Nat)
    (hoff : off ≤ data.length) (ho : st.scan_octets_seen ≤ 9) :
    (scan_header_stage data st off).1.scan_octets_seen ≤ 9 ∧
    (scan_header_stage data st off).2 ≤ data.length ∧
    (scan_header_stage data st off).1.preface = st.preface ∧
    (scan_header_stage data st off).1.mid_data_frame = st.mid_data_frame := by
  unfold scan_header_stage
  split_ifs <;> dsimp only <;>
    refine ⟨by simp [FRAME_HEADER_LENGTH]; omega, by omega, rfl, rfl⟩

set_option maxHeartbeats 2000000 in
/-- `non_data_scan` keeps `*flush_offset` and `data_offset` within the chunk
and preserves the header-octet bound together with `preface` and
`mid_data_frame`. -/
theorem non_data_scan_spec (st : FlowState) (length fo frame_length type frame_flags off : Nat)
    (hoff : off ≤ length) (hfo : fo ≤ length) (ho : st.scan_octets_seen ≤ 9) :
    (non_data_scan st length fo frame_length type frame_flags off).2.1 ≤ length ∧
    (non_data_scan st length fo frame_length type frame_flags off).2.2.1 ≤ length ∧
    (non_data_scan st length fo frame_length type frame_flags off).2.2.2.scan_octets_seen ≤ 9 ∧
    (non_data_scan st length fo frame_length type frame_flags off).2.2.2.preface = st.preface ∧
    (non_data_scan st length fo frame_length type frame_flags off).2.2.2.mid_data_frame
      = st.mid_data_frame := by
  unfold non_data_scan
  split_ifs <;> first
    | exact ⟨hfo, hoff, ho, rfl, rfl⟩
    | (dsimp only; split_ifs <;> dsimp only <;>
        refine ⟨by omega, by omega, by omega, rfl, rfl⟩)

/-- The same bounds for the full-header dispatch step. -/
theorem scan_frame_dispatch_spec (data : List Nat) (st : FlowState) (fo off : Nat)
    (hoff : off ≤ data.length) (hfo : fo ≤ data.length) (ho : st.scan_octets_seen ≤ 9) :
    (scan_frame_dispatch data st fo off).2.1 ≤ data.length ∧
    (scan_frame_dispatch data st fo off).2.2.1 ≤ data.length ∧
    (scan_frame_dispatch data st fo off).2.2.2.scan_octets_seen ≤ 9 ∧
    (scan_frame_dispatch data st fo off).2.2.2.preface = st.preface ∧
    (scan_frame_dispatch data st fo off).2.2.2.mid_data_frame = st.mid_data_frame := by
  unfold scan_frame_dispatch
  dsimp only
  split
  · exact ⟨hfo, hoff, ho, rfl, rfl⟩
  · exact non_data_scan_spec _ _ _ _ _ _ _ hoff hfo ho

/-- The scan loop returns a flush offset within the chunk and preserves the
header-octet bound, `preface` and `mid_data_frame`. -/
theorem scan_loop_spec (data : List Nat) :
    ∀ (fuel : Nat) (st : FlowState) (fo off : Nat),
      off ≤ data.length → fo ≤ data.length → st.scan_octets_seen ≤ 9 →
      (scan_loop data fuel st fo off).2.1 ≤ data.length ∧
      (scan_loop data fuel st fo off).2.2.scan_octets_seen ≤ 9 ∧
      (scan_loop data fuel st fo off).2.2.preface = st.preface ∧
      (scan_loop data fuel st fo off).2.2.mid_data_frame = st.mid_data_frame
  | 0, st, fo, off => fun _hoff hfo ho => ⟨hfo, ho, rfl, rfl⟩
  | fuel + 1, st, fo, off => by
    intro hoff hfo ho
    obtain ⟨hh1, hh2, hh3, hh4⟩ := scan_header_stage_spec data st off hoff ho
    obtain ⟨hd1, hd2, hd3, hd4, hd5⟩ :=
      scan_frame_dispatch_spec data (scan_header_stage data st off).1 fo
        (scan_header_stage data st off).2 hh2 hfo hh1
    simp only [scan_loop]
    split
    · exact ⟨hfo, ho, rfl, rfl⟩
    · split
      · exact ⟨hfo, hh1, hh3, hh4⟩
      · split
        · obtain ⟨hr1, hr2, hr3, hr4⟩ := scan_loop_spec data fuel
            (scan_frame_dispatch data (scan_header_stage data st off).1 fo
              (scan_header_stage data st off).2).2.2.2
            (scan_frame_dispatch data (scan_header_stage data st off).1 fo
              (scan_header_stage data st off).2).2.1
            (scan_frame_dispatch data (scan_header_stage data st off).1 fo
              (scan_header_stage data st off).2).2.2.1 hd2 hd1 hd3
          exact ⟨hr1, hr2, by rw [hr3, hd4, hh3], by rw [hr4, hd5, hh4]⟩
        · exact ⟨hd1, hd3, by rw [hd4, hh3], by rw [hd5, hh4]⟩

/-- The reachable-state invariant of one scan direction: while the preface
is pending `scan_octets_seen` counts matched preface octets (below 24),
afterwards it counts frame-header octets (at most 9). -/
def Inv (st : FlowState) : Prop :=
  (st.preface = true → st.scan_octets_seen < 24) ∧
  (st.preface = false → st.scan_octets_seen ≤ 9)

theorem validate_preface_good (data : List Nat) (len o : Nat)
    (hv : validate_preface data len o = .V_GOOD) : 24 ≤ o + len := by
  unfold validate_preface at hv
  dsimp only at hv
  split_ifs at hv <;> first | exact absurd hv (by decide) | omega

theorem validate_preface_tbd (data : List Nat) (len o : Nat)
    (hv : validate_preface data len o = .V_TBD) : o + len < 24 := by
  unfold validate_preface at hv
  dsimp only at hv
  split_ifs at hv <;> first | exact absurd hv (by decide) | omega

/-- One `implement_scan` call preserves `Inv` and, on `flush`, returns a
flush offset no larger than the chunk. -/
theorem implement_scan_spec (st : FlowState) (data : List Nat) (h : Inv st) :
    ((implement_scan st data).1 = .flush → (implement_scan st data).2.1 ≤ data.length) ∧
    Inv (implement_scan st data).2.2 := by
  unfold implement_scan
  by_cases hp : st.preface = true
  · rw [if_pos hp]
    rcases hv : validate_preface data data.length st.scan_octets_seen with _ | _ | _ <;>
      simp only [hv]
    · have := validate_preface_good data data.length st.scan_octets_seen hv
      exact ⟨fun _ => by omega, fun hq => by simp at hq, fun _ => by dsimp only; omega⟩
    · refine ⟨fun hq => by simp at hq, fun _ => ?_, fun hq => ?_⟩
      · exact h.1 hp
      · rw [hp] at hq; exact Bool.noConfusion hq
    · have := validate_preface_tbd data data.length st.scan_octets_seen hv
      refine ⟨fun hq => by simp at hq, fun _ => by dsimp only; omega, fun hq => ?_⟩
      · rw [hp] at hq; exact Bool.noConfusion hq
  · rw [if_neg hp]
    have hp2 : st.preface = false := by
      rcases hb : st.preface with _ | _
      · rfl
      · exact absurd hb hp
    obtain ⟨h1, h2, h3, h4⟩ := scan_loop_spec data (2 * data.length + 2)
      { st with octets_before_first_header := 0 } 0 0 (by omega) (by omega) (h.2 hp2)
    refine ⟨fun _ => h1, fun hq => ?_, fun _ => h2⟩
    rw [h3] at hq
    rw [show ({ st with octets_before_first_header := 0 } : FlowState).preface
      = st.preface from rfl, hp2] at hq
    exact Bool.noConfusion hq

/-- Byte conservation of the caller protocol: every delivered byte is
accounted once, either inside some returned `*flush_offset`, or inside a
chunk a `search` verdict absorbed, or in the unconsumed remainder. -/
theorem drive_conservation :
    ∀ (cuts : List Nat) (st : FlowState) (stream : List Nat), Inv st →
      sum_flush_offsets (drive st stream cuts).1 + sum_search_lens (drive st stream cuts).1
        + (drive st stream cuts).2.length = stream.length
  | [] => fun st stream _ => by
    simp [drive, sum_flush_offsets, sum_search_lens]
  | n :: cuts => fun st stream hInv => by
    obtain ⟨hfo, hInv2⟩ := implement_scan_spec st (stream.take n) hInv
    simp only [drive]
    rcases hs : (implement_scan st (stream.take n)).1 with _ | _ | _ <;> simp only [hs]
    · have ih := drive_conservation cuts (implement_scan st (stream.take n)).2.2
        (stream.drop (stream.take n).length) hInv2
      simp [sum_flush_offsets, sum_search_lens, List.length_take] at ih ⊢
      omega
    · have ih := drive_conservation cuts (implement_scan st (stream.take n)).2.2
        (stream.drop (implement_scan st (stream.take n)).2.1) hInv2
      have hlen : (implement_scan st (stream.take n)).2.1 ≤ stream.length := by
        have := hfo hs
        simp only [List.length_take] at this
        omega
      simp [sum_flush_offsets, sum_search_lens] at ih ⊢
      omega
    · simp [sum_flush_offsets, sum_search_lens]

/-- `Inv` holds after any sequence of `scan` calls. -/
theorem run_scan_inv : ∀ (chunks : List (List Nat)) (st : FlowState), Inv st →
    Inv (run_scan st chunks)
  | [], st => fun h => h
  | c :: cs, st => fun h =>
    run_scan_inv cs (implement_scan st c).2.2 (implement_scan_spec st c h).2

/-! ### Preface validation characterised by byte comparisons -/

theorem validate_preface_bad (data : List Nat) (len o : Nat)
    (h : ∃ i, i < min len (24 - o) ∧
      data.getD i 0 ≠ connection_prefix_bytes.getD (o + i) 0) :
    validate_preface data len o = .V_BAD := by
  obtain ⟨i, hi, hne⟩ := h
  unfold validate_preface
  dsimp only
  rw [if_pos]
  refine List.any_eq_true.mpr ⟨i, List.mem_range.mpr ?_, by simpa using hne⟩
  split_ifs <;> omega

theorem validate_preface_match_good (data : List Nat) (len o : Nat)
    (hm : ∀ i, i < min len (24 - o) →
      data.getD i 0 = connection_prefix_bytes.getD (o + i) 0)
    (hge : 24 ≤ o + len) :
    validate_preface data len o = .V_GOOD := by
  unfold validate_preface
  dsimp only
  rw [if_neg, if_neg (by omega)]
  intro hany
  obtain ⟨i, hmem, hb⟩ := List.any_eq_true.mp hany
  rw [List.mem_range] at hmem
  have hib : i < min len (24 - o) := by
    split_ifs at hmem <;> omega
  exact absurd (hm i hib) (by simpa using hb)

theorem validate_preface_match_tbd (data : List Nat) (len o : Nat)
    (hm : ∀ i, i < min len (24 - o) →
      data.getD i 0 = connection_prefix_bytes.getD (o + i) 0)
    (hlt : o + len < 24) :
    validate_preface data len o = .V_TBD := by
  unfold validate_preface
  dsimp only
  rw [if_neg, if_pos (by omega)]
  intro hany
  obtain ⟨i, hmem, hb⟩ := List.any_eq_true.mp hany
  rw [List.mem_range] at hmem
  have hib : i < min len (24 - o) := by
    split_ifs at hmem <;> omega
  exact absurd (hm i hib) (by simpa using hb)

/-! ### Claim theorems -/

/-- C1, counterexample: the claim "the sum of the `*flush_offset` values
returned across all Flush verdicts plus the final unread tail equals the
total number of bytes delivered to scan" fails on the code.  Feeding the
24-byte connection preface as two chunks of 8 and 16 bytes yields verdicts
Search then Flush with `*flush_offset = 16` and an empty tail, yet 24 bytes
were delivered: the 8 octets absorbed by the Search verdict appear in no
`*flush_offset`. -/
theorem c1_flush_offset_sum_counterexample :
    (drive initial_flow_state connection_prefix_bytes [8, 16]).1.map Call.status
      = [.search, .flush] ∧
    sum_flush_offsets (drive initial_flow_state connection_prefix_bytes [8, 16]).1 = 16 ∧
    (drive initial_flow_state connection_prefix_bytes [8, 16]).2 = [] ∧
    connection_prefix_bytes.length = 24 ∧
    sum_flush_offsets (drive initial_flow_state connection_prefix_bytes [8, 16]).1
      + (drive initial_flow_state connection_prefix_bytes [8, 16]).2.length
      ≠ connection_prefix_bytes.length := by decide

/-- C1, amended: for every chunk sequence fed to `scan` (the caller
resuming at `chunk[flush_offset..]` after each Flush verdict), the sum of
the `*flush_offset` values returned across Flush verdicts, plus the lengths
of the chunks absorbed by Search verdicts, plus the final unread tail,
equals the total number of bytes delivered to `scan`. -/
theorem c1_scan_byte_conservation (stream cuts : List Nat) :
    sum_flush_offsets (drive initial_flow_state stream cuts).1
      + sum_search_lens (drive initial_flow_state stream cuts).1
      + (drive initial_flow_state stream cuts).2.length = stream.length :=
  drive_conservation cuts initial_flow_state stream ⟨fun _ => by decide, fun _ => by decide⟩

/-- C3: the claim "whenever the most recent frame header has the PADDED
flag set, the first payload byte after that header is read as the pad
length ... and no padding byte ever appears in the frame_data buffer" is
the intent (the reassembler parses the frame *length* from the header it
just copied), but the code reads the frame *flags* from
`scan_frame_header` — the header of the last frame processed by `scan` —
instead of the header just copied during reassembly.  Scanning a PADDED
HEADERS frame followed by the CONTINUATION frame that flushes the PDU
leaves the CONTINUATION header (no PADDED flag) in `scan_frame_header`, so
reassembly copies the HEADERS pad length octet `2` and padding octets
`0xBB 0xCC` straight into `frame_data` and never adjusts
`frame_data_size`. -/
theorem c3_reassemble_padding_flags_bug :
    (implement_scan (implement_scan initial_flow_state connection_prefix_bytes).2.2 c3_pdu).1
      = .flush ∧
    (implement_scan (implement_scan initial_flow_state connection_prefix_bytes).2.2 c3_pdu).2.1
      = 23 ∧
    (implement_scan (implement_scan initial_flow_state
      connection_prefix_bytes).2.2 c3_pdu).2.2.scan_frame_header
      = [0, 0, 1, 9, 4, 0, 0, 0, 1] ∧
    (implement_reassemble (implement_scan (implement_scan initial_flow_state
      connection_prefix_bytes).2.2 c3_pdu).2.2 23 0 c3_pdu true).2.frame_data
      = [2, 0xAA, 0xBB, 0xCC, 0xDD] ∧
    (implement_reassemble (implement_scan (implement_scan initial_flow_state
      connection_prefix_bytes).2.2 c3_pdu).2.2 23 0 c3_pdu true).2.frame_data_size
      = 5 := by decide

/-- C4: while the per-direction preface flag is set, a chunk whose octets
mismatch the connection prefix inside the compare window makes `scan`
return Abort and record `EVENT_PREFACE_MATCH_FAILURE`; a chunk that
completes a match of the 24-octet prefix makes `scan` return Flush with
`*flush_offset` equal to exactly 24 minus the octets already seen, flagging
the preface payload for discard; a chunk that matches but leaves the prefix
incomplete makes `scan` return Search. -/
theorem c4_preface_phase (st : FlowState) (data : List Nat)
    (hp : st.preface = true) (_ho : st.scan_octets_seen < 24) :
    ((∃ i, i < min data.length (24 - st.scan_octets_seen) ∧
        data.getD i 0 ≠ connection_prefix_bytes.getD (st.scan_octets_seen + i) 0) →
      (implement_scan st data).1 = .abort ∧
      Event.EVENT_PREFACE_MATCH_FAILURE ∈ (implement_scan st data).2.2.events) ∧
    ((∀ i, i < min data.length (24 - st.scan_octets_seen) →
        data.getD i 0 = connection_prefix_bytes.getD (st.scan_octets_seen + i) 0) →
      24 ≤ st.scan_octets_seen + data.length →
      implement_scan st data =
        (.flush, 24 - st.scan_octets_seen,
          { st with preface := false, payload_discard := true, scan_octets_seen := 0 })) ∧
    ((∀ i, i < min data.length (24 - st.scan_octets_seen) →
        data.getD i 0 = connection_prefix_bytes.getD (st.scan_octets_seen + i) 0) →
      st.scan_octets_seen + data.length < 24 →
      (implement_scan st data).1 = .search) := by
  refine ⟨fun hmism => ?_, fun hm hge => ?_, fun hm hlt => ?_⟩
  · have hv := validate_preface_bad data data.length st.scan_octets_seen hmism
    simp only [implement_scan, if_pos hp, hv]
    simp
  · have hv := validate_preface_match_good data data.length st.scan_octets_seen hm hge
    simp only [implement_scan, if_pos hp, hv]
  · have hv := validate_preface_match_tbd data data.length st.scan_octets_seen hm hlt
    simp only [implement_scan, if_pos hp, hv]

/-- C4, witness: the whole preface in one chunk from the initial state
flushes exactly 24 octets and flags the payload for discard. -/
theorem c4_preface_phase_witness :
    (implement_scan initial_flow_state connection_prefix_bytes).1 = .flush ∧
    (implement_scan initial_flow_state connection_prefix_bytes).2.1 = 24 ∧
    (implement_scan initial_flow_state connection_prefix_bytes).2.2.payload_discard = true := by
  have h := (c4_preface_phase initial_flow_state connection_prefix_bytes rfl
    (by decide)).2.1 (by decide) (by decide)
  rw [h]
  exact ⟨rfl, rfl, rfl⟩

/-- C5: when a complete CONTINUATION frame is scanned at a frame boundary,
it aborts with the `UNEXPECTED_CONTINUATION` infraction and event unless
`continuation_expected` is set; when the flag is set, a CONTINUATION with
END_HEADERS clears the flag and flushes, and one without END_HEADERS keeps
the flag and stays in Search. -/
theorem c5_continuation_handling (st : FlowState) (length fo frame_length frame_flags off : Nat)
    (hdp : st.data_processing = false) (hrem : st.scan_remaining_frame_octets = 0)
    (hmax : frame_length + FRAME_HEADER_LENGTH ≤ MAX_OCTETS)
    (hfull : frame_length ≤ length - off) :
    (st.continuation_expected = false →
      (non_data_scan st length fo frame_length FT_CONTINUATION frame_flags off).1 = .abort ∧
      Infraction.INF_UNEXPECTED_CONTINUATION ∈
        (non_data_scan
          st length fo frame_length FT_CONTINUATION frame_flags off).2.2.2.infractions ∧
      Event.EVENT_UNEXPECTED_CONTINUATION ∈
        (non_data_scan st length fo frame_length FT_CONTINUATION frame_flags off).2.2.2.events) ∧
    (st.continuation_expected = true → frame_flags &&& END_HEADERS ≠ 0 →
      (non_data_scan st length fo frame_length FT_CONTINUATION frame_flags off).1 = .flush ∧
      (non_data_scan
        st length fo frame_length FT_CONTINUATION frame_flags off).2.2.2.continuation_expected
        = false) ∧
    (st.continuation_expected = true → frame_flags &&& END_HEADERS = 0 →
      (non_data_scan st length fo frame_length FT_CONTINUATION frame_flags off).1 = .search ∧
      (non_data_scan
        st length fo frame_length FT_CONTINUATION frame_flags off).2.2.2.continuation_expected
        = true) := by
  unfold non_data_scan
  rw [if_neg (by rw [hdp]; exact Bool.noConfusion), if_neg (by simp), if_neg (by omega),
    if_pos hrem]
  dsimp only
  rw [if_neg (by omega)]
  refine ⟨fun hce => ?_, fun hce hflag => ?_, fun hce hflag => ?_⟩
  · rw [if_neg (by decide), if_pos rfl, hce]
    dsimp only
    refine ⟨rfl, by simp, by simp⟩
  · rw [if_neg (by decide), if_pos rfl, hce]
    dsimp only
    rw [if_neg hflag]
    exact ⟨rfl, rfl⟩
  · rw [if_neg (by decide), if_pos rfl, hce]
    dsimp only
    rw [if_pos hflag]
    exact ⟨rfl, rfl⟩

/-- C5, witness: with `continuation_expected` set, a zero-length
CONTINUATION frame carrying END_HEADERS flushes and clears the flag. -/
theorem c5_continuation_handling_witness :
    (non_data_scan { initial_flow_state with preface := false, continuation_expected := true }
      9 0 0 FT_CONTINUATION 4 0).1 = .flush ∧
    (non_data_scan { initial_flow_state with preface := false, continuation_expected := true }
      9 0 0 FT_CONTINUATION 4 0).2.2.2.continuation_expected = false :=
  (c5_continuation_handling
    { initial_flow_state with preface := false, continuation_expected := true }
    9 0 0 4 0 rfl rfl (by decide) (by decide)).2.1 rfl (by decide)

/-- C7, counterexample: the claim "between calls 0 ≤ octets_seen < 9" fails
on the code.  One scan call from the initial state with the first 10
preface octets returns Search and leaves `scan_octets_seen = 10`. -/
theorem c7_octets_seen_counterexample :
    (implement_scan initial_flow_state (connection_prefix_bytes.take 10)).1 = .search ∧
    (implement_scan initial_flow_state
      (connection_prefix_bytes.take 10)).2.2.scan_octets_seen = 10 ∧
    ¬ (implement_scan initial_flow_state
      (connection_prefix_bytes.take 10)).2.2.scan_octets_seen < 9 := by decide

/-- C7, amended: for every per-direction scanner state reachable by any
sequence of scan calls, between calls `scan_octets_seen` satisfies
`0 ≤ octets_seen < 24` while the preface flag is set (it counts matched
preface octets there) and `0 ≤ octets_seen ≤ 9` afterwards (the value 9
occurs between calls while a frame's payload is still being consumed). -/
theorem c7_octets_seen_bounds (chunks : List (List Nat)) :
    ((run_scan initial_flow_state chunks).preface = true →
      (run_scan initial_flow_state chunks).scan_octets_seen < 24) ∧
    ((run_scan initial_flow_state chunks).preface = false →
      (run_scan initial_flow_state chunks).scan_octets_seen ≤ 9) :=
  run_scan_inv chunks initial_flow_state ⟨fun _ => by decide, fun _ => by decide⟩

end H2FS

namespace PDFTok

/-- `PDFTokenizer::PDFRet`: `EOS` is the clean end-of-stream return; the
others are the grammar-violation returns used in `pdf_tokenizer.l`. -/
inductive PDFRet where
  | EOS
  | NOT_NAME_IN_DICTIONARY_KEY
  | INCOMPLETE_ARRAY_IN_DICTIONARY
  | STREAM_NO_LENGTH
  | UNEXPECTED_SYMBOL
deriving DecidableEq, Repr

/-- The `u16_state` record: `{cur_byte, high, low}` of the UTF-16BE decode
automaton (`uint32_t` fields; all arithmetic stays far below 2^32). -/
structure U16State where
  cur_byte : Nat
  high : Nat
  low : Nat
deriving DecidableEq, Repr

/-- Zero-initialised `u16_state`. -/
def u16_initial : U16State := ⟨0, 0, 0⟩

/-- `PDFTokenizer::u16_eval(byte)`.  The returned list holds the code point
values this call passes to `u16_to_u8` (at most one).  On a low-surrogate
unit below `0xdc00` the C++ returns `UNEXPECTED_SYMBOL`, which aborts
tokenisation, so the mutated state is irrelevant there.  The `default`
branch (`cur_byte ≥ 4`) is the C++ `assert(false)`: unreachable, and with
`NDEBUG` the switch falls through doing nothing. -/
def u16_eval (s : U16State) (byte : Nat) : Except PDFRet (U16State × List Nat) :=
  match s.cur_byte with
  | 0 => .ok ({ s with high := byte, cur_byte := 1 }, [])
  | 1 =>
    let high := (s.high <<< 8) ||| byte
    if high < 0xd800 then .ok ({ s with high := high, cur_byte := 0 }, [high])
    else .ok ({ s with high := (high - 0xd800) * 0x400, cur_byte := 2 }, [])
  | 2 => .ok ({ s with low := byte, cur_byte := 3 }, [])
  | 3 =>
    let low := (s.low <<< 8) ||| byte
    if low < 0xdc00 then .error .UNEXPECTED_SYMBOL
    else .ok ({ s with low := low - 0xdc00, cur_byte := 0 },
      [(s.high ||| (low - 0xdc00)) + 0x10000])
  | _ + 4 => .ok (s, [])

/-- `u16_eval` folded over a byte sequence, accumulating the code points
passed to `u16_to_u8`. -/
def u16_eval_list (s : U16State) : List Nat → Except PDFRet (U16State × List Nat)
  | [] => .ok (s, [])
  | b :: bs =>
    match u16_eval s b with
    | .error e => .error e
    | .ok (s1, cps) =>
      match u16_eval_list s1 bs with
      | .error e => .error e
      | .ok (s2, cps2) => .ok (s2, cps ++ cps2)

/-- `PDFTokenizer::u16_to_u8(code)`: canonical 1/2/3/4-byte UTF-8
re-encoding.  The final branch is the `assert(code <= 0x1fffff)`: with
`NDEBUG` no branch matches and nothing is written. -/
def u16_to_u8 (code : Nat) : List Nat :=
  if code ≤ 0x7f then [code]
  else if code ≤ 0x7ff then
    [0xc0 ||| (code >>> 6), 0x80 ||| (code &&& 0x3f)]
  else if code ≤ 0xffff then
    [0xe0 ||| (code >>> 12), 0x80 ||| ((code >>> 6) &&& 0x3f), 0x80 ||| (code &&& 0x3f)]
  else if code ≤ 0x1fffff then
    [0xf0 ||| (code >>> 18), 0x80 ||| ((code >>> 12) &&& 0x3f),
     0x80 ||| ((code >>> 6) &&& 0x3f), 0x80 ||| (code &&& 0x3f)]
  else []

/-- The start conditions of the lexer (`%x` states plus `INITIAL`). -/
inductive StartCond where
  | INITIAL
  | indobj
  | stream
  | dictnr
  | litstr
  | hexstr
  | jslstr
  | jshstr
  | jsstream
  | u16
  | u16hex
  | jsstru16
  | jshstru16
  | jsstreamu16
deriving DecidableEq, Repr

/-- The `obj_dictionary` record: `key_value` is true when the next token is
expected to be a key; `array_level` is the `[`-nesting recorded when the
dictionary opened (`int` in C++). -/
structure ObjDictionary where
  key_value : Bool
  array_level : Int
deriving DecidableEq, Repr

/-- Modelled from the spec: `obj_dictionary.clear()` is defined in
`pdf_tokenizer.h`, which is not part of the fragment; clearing the
dictionary context restores its defaults — the next token is a key and the
array level is 0. -/
def ObjDictionary.clear : ObjDictionary := ⟨true, 0⟩

/-- The tokenizer state: current start condition plus the `yy_push_state`
stack, the semantic records of `pdf_tokenizer.l`, and the output sink
(`yyout`) as a byte list.  `lit_depth` is the balanced-parentheses depth of
the current literal string (see `h_lit_open`). -/
structure PdfState where
  cond : StartCond
  stack : List StartCond
  obj_dictionary : ObjDictionary
  obj_array_nesting : Int
  obj_entry_key : String
  obj_stream_rem_length : Int
  obj_stream_is_js : Bool
  js_stream_refs : List Int
  u16_state : U16State
  lit_depth : Nat
  out : List Nat
deriving DecidableEq, Repr

/-- State at lexer construction: `INITIAL`, empty stack, cleared records,
`obj_stream.rem_length = -1` (unknown). -/
def pdf_initial : PdfState :=
  ⟨.INITIAL, [], ObjDictionary.clear, 0, "", -1, false, [], u16_initial, 0, []⟩

/-- `yy_push_state(x)`: save the current condition, switch to `x`. -/
def push (st : PdfState) (c : StartCond) : PdfState :=
  { st with stack := st.cond :: st.stack, cond := c }

/-- `yy_pop_state()`.  Popping an empty stack is a flex fatal error and is
unreachable from `pdf_initial`; the model leaves the state unchanged. -/
def pop (st : PdfState) : PdfState :=
  match st.stack with
  | [] => st
  | c :: rest => { st with cond := c, stack := rest }

/-- `ECHO`: copy the matched text to `yyout`. -/
def echo (st : PdfState) (bytes : List Nat) : PdfState :=
  { st with out := st.out ++ bytes }

/-- `PDFTokenizer::h_dict_open`: clear the dictionary context, then record
the current array nesting as the opening level.  Always returns `EOS`. -/
def h_dict_open (st : PdfState) : PdfState :=
  { st with obj_dictionary := { ObjDictionary.clear with array_level := st.obj_array_nesting } }

/-- `PDFTokenizer::h_dict_close`: the dictionary context is cleared first,
and only then is `obj_dictionary.array_level` compared with
`obj_array.nesting_level` — so the comparison sees the cleared level 0, not
the level recorded by `h_dict_open`. -/
def h_dict_close (st : PdfState) : Except PDFRet PdfState :=
  let st := { st with obj_dictionary := ObjDictionary.clear }
  if st.obj_dictionary.array_level ≠ st.obj_array_nesting then
    .error .INCOMPLETE_ARRAY_IN_DICTIONARY
  else
    .ok st

/-- `PDFTokenizer::h_dict_other`: inside an unbalanced array the token is
ignored; a non-name token in key position is an error; otherwise the
key/value parity flips. -/
def h_dict_other (st : PdfState) : Except PDFRet PdfState :=
  if st.obj_dictionary.array_level ≠ st.obj_array_nesting then .ok st
  else if st.obj_dictionary.key_value then .error .NOT_NAME_IN_DICTIONARY_KEY
  else .ok { st with obj_dictionary :=
    { st.obj_dictionary with key_value := !st.obj_dictionary.key_value } }

/-- `PDFTokenizer::h_dict_name`: in key position the name is stored as the
current entry key (the C++ truncates to the bounded `obj_entry.key` buffer;
the keys this development uses are far below any plausible bound); the
parity flips. -/
def h_dict_name (st : PdfState) (name : String) : PdfState :=
  if st.obj_dictionary.array_level ≠ st.obj_array_nesting then st
  else
    let st := if st.obj_dictionary.key_value then { st with obj_entry_key := name } else st
    { st with obj_dictionary :=
      { st.obj_dictionary with key_value := !st.obj_dictionary.key_value } }

/-- `literal_unescape`: Table 3 escape sequences (`n r t b f`); any other
escaped character is passed through. -/
def literal_unescape (c : Nat) : Nat :=
  if c = 110 then 10
  else if c = 114 then 13
  else if c = 116 then 9
  else if c = 98 then 8
  else if c = 102 then 12
  else c

/-- `PDFTokenizer::h_lit_unescape`: emit the unescaped character. -/
def h_lit_unescape (st : PdfState) (c : Nat) : PdfState :=
  echo st [literal_unescape c]

/-- `PDFTokenizer::h_lit_oct2chr`: an octal escape `\ooo` decodes to one
byte; `(char)v` truncates the up-to-9-bit value. -/
def h_lit_oct2chr (st : PdfState) (v : Nat) : PdfState :=
  echo st [v % 256]

/-- Pair up hex nibble values into bytes; an odd trailing nibble is shifted
left 4 bits (`v << 4`). -/
def hex_nibbles_to_bytes : List Nat → List Nat
  | a :: b :: rest => (a * 16 + b) :: hex_nibbles_to_bytes rest
  | [a] => [a * 16]
  | [] => []

/-- `PDFTokenizer::h_hex_hex2chr`: decode hex pairs of a JS hex string to
bytes on `yyout`. -/
def h_hex_hex2chr (st : PdfState) (nibbles : List Nat) : PdfState :=
  echo st (hex_nibbles_to_bytes nibbles)

/-- `PDFTokenizer::h_lit_u16`: feed each byte to `u16_eval`; emitted code
points go to `yyout` through `u16_to_u8`. -/
def h_lit_u16 (st : PdfState) (bytes : List Nat) : Except PDFRet PdfState :=
  match u16_eval_list st.u16_state bytes with
  | .error e => .error e
  | .ok (s2, cps) => .ok { st with u16_state := s2, out := st.out ++ cps.flatMap u16_to_u8 }

/-- `PDFTokenizer::h_hex_hex2chr_u16`: like `h_hex_hex2chr` but the decoded
bytes feed the UTF-16 automaton. -/
def h_hex_hex2chr_u16 (st : PdfState) (nibbles : List Nat) : Except PDFRet PdfState :=
  h_lit_u16 st (hex_nibbles_to_bytes nibbles)

/-- `PDFTokenizer::h_lit_u16_unescape`: the reverse solidus is a split
point; the unescaped character feeds the UTF-16 automaton. -/
def h_lit_u16_unescape (st : PdfState) (c : Nat) : Except PDFRet PdfState :=
  h_lit_u16 st [literal_unescape c]

/-- `PDFTokenizer::h_stream_open`: a stream without a non-negative
`/Length` is `STREAM_NO_LENGTH`. -/
def h_stream_open (st : PdfState) : Except PDFRet PdfState :=
  if st.obj_stream_rem_length < 0 then .error .STREAM_NO_LENGTH else .ok st

/-- `PDFTokenizer::h_stream`: consume `yyleng` bytes of the open stream. -/
def h_stream (st : PdfState) (yyleng : Nat) : PdfState :=
  { st with obj_stream_rem_length := st.obj_stream_rem_length - (yyleng : Int) }

/-- `PDFTokenizer::h_stream_close(text = EOL + "endstream")`: subtract
`yyleng`; if the stream is exhausted, append `'\n'` to `yyout` — but only
when the condition is `jsstream` — and report closure; otherwise the
matched text was stream content (echoed only for `jsstream`). -/
def h_stream_close (st : PdfState) (text : List Nat) : Bool × PdfState :=
  let st := { st with obj_stream_rem_length :=
    st.obj_stream_rem_length - (text.length : Int) }
  if st.obj_stream_rem_length ≤ 0 then
    (true, if st.cond = .jsstream then echo st [10] else st)
  else
    (false, if st.cond = .jsstream then echo st text else st)

/-- `PDFTokenizer::h_stream_length`: an integer value under the `/Length`
key seeds `obj_stream.rem_length`. -/
def h_stream_length (st : PdfState) (v : Int) : PdfState :=
  if st.obj_entry_key = "/Length" then { st with obj_stream_rem_length := v } else st

/-- `PDFTokenizer::h_ref`: a reference under the `/JS` key records the
referenced object id. -/
def h_ref (st : PdfState) (v : Int) : PdfState :=
  if st.obj_entry_key = "/JS" then { st with js_stream_refs := st.js_stream_refs ++ [v] }
  else st

/-- `PDFTokenizer::h_ind_obj_open`: an indirect object whose id was
referenced from `/JS` marks its stream as JavaScript. -/
def h_ind_obj_open (st : PdfState) (v : Int) : PdfState :=
  if v ∈ st.js_stream_refs then { st with obj_stream_is_js := true } else st

/-- Modelled from the spec: `h_ind_obj_close` is declared in the missing
`pdf_tokenizer.h`; closing `endobj` ends the object, so the per-object
stream context (`is_js`, `rem_length`) returns to its defaults. -/
def h_ind_obj_close (st : PdfState) : PdfState :=
  { st with obj_stream_is_js := false, obj_stream_rem_length := -1 }

/-- Modelled from the spec: `h_lit_open` (missing header) maintains the
balanced-parentheses depth of a literal string and reports whether this
`(` is the outermost one. -/
def h_lit_open (st : PdfState) : Bool × PdfState :=
  (st.lit_depth == 0, { st with lit_depth := st.lit_depth + 1 })

/-- Modelled from the spec: `h_lit_close` (missing header) reports whether
this `)` closes the outermost parenthesis of the literal string. -/
def h_lit_close (st : PdfState) : Bool × PdfState :=
  (st.lit_depth - 1 == 0, { st with lit_depth := st.lit_depth - 1 })

/-- Modelled from the spec: `h_lit_str` (missing header) marks a literal
string as JavaScript when the current dictionary key is `/JS`. -/
def h_lit_str (st : PdfState) : Bool := st.obj_entry_key == "/JS"

/-- Modelled from the spec: `h_hex_str` (missing header) marks a hex string
as JavaScript when the current dictionary key is `/JS`. -/
def h_hex_str (st : PdfState) : Bool := st.obj_entry_key == "/JS"

/-- `PDFTokenizer::h_u16_start`: after the BOM, replace the state under the
`u16` probe (`jslstr` or `indobj`) with the corresponding UTF-16 state. -/
def h_u16_start (st : PdfState) : PdfState :=
  let st := pop st
  match st.cond with
  | .jslstr => push (pop st) .jsstru16
  | .indobj => push (pop st) .jsstreamu16
  | _ => st

/-- `PDFTokenizer::h_u16_break`: no BOM; pop the probe and (for a stream)
enter the 8-bit `jsstream` state.  The broken byte is re-lexed by the
caller (`yyless(0)`). -/
def h_u16_break (st : PdfState) : PdfState :=
  let st := pop st
  match st.cond with
  | .indobj => push st .jsstream
  | _ => st

/-- `PDFTokenizer::h_u16_hex_start`: hex BOM seen; replace `jshstr` with
`jshstru16`. -/
def h_u16_hex_start (st : PdfState) : PdfState :=
  push (pop (pop st)) .jshstru16

/-- `PDFTokenizer::h_u16_hex_break`: no hex BOM; back to `jshstr`, byte
re-lexed by the caller. -/
def h_u16_hex_break (st : PdfState) : PdfState :=
  pop st

/-- The lexeme alphabet: one constructor per pattern of the rule table of
`pdf_tokenizer.l`, with the semantic payload each action reads
(`atoi`/`sscanf` values, body bytes, `yyleng`).  `tByte` is a single octet
matched by a catch-all rule (`<u16>.|\n`, `<u16hex>.|\n`, `OBJ_DICT_SKIP`,
or the global `<*>.|\n`). -/
inductive Tok where
  | tSkip
  | tComment
  | tWhitespace
  | tIndObjOpen (id : Int)
  | tIndObjClose
  | tStreamOpen
  | tStreamSkip (bytes : List Nat)
  | tStreamClose (text : List Nat)
  | tDictOpen
  | tDictClose
  | tRef (id : Int)
  | tBoolean
  | tRelNum
  | tNull
  | tIntNum (v : Int)
  | tName (s : String)
  | tArrayOpen
  | tArrayClose
  | tLitStrOpen
  | tLitStrClose
  | tLitStrEsc (c : Nat)
  | tLitStrEscOct (v : Nat)
  | tLitStrEscEol
  | tLitStrEol (bytes : List Nat)
  | tLitStrBody (bytes : List Nat)
  | tLitStrU16Unesc (c : Nat)
  | tU16Bom
  | tU16BomHex
  | tHexStrOpen
  | tHexStrClose
  | tHexBody (nibbles : List Nat)
  | tHexSkip
  | tByte (b : Nat)
deriving DecidableEq, Repr

/-- Value of an ASCII hex digit. -/
def hex_val (b : Nat) : Option Nat :=
  if 48 ≤ b ∧ b ≤ 57 then some (b - 48)
  else if 65 ≤ b ∧ b ≤ 70 then some (b - 55)
  else if 97 ≤ b ∧ b ≤ 102 then some (b - 87)
  else none

/-- A single byte lexed in `jslstr` (used when `h_u16_break` re-feeds the
broken byte with `yyless(0)`): `(` and `)` hit the paren rules, anything
else is string body and is echoed. -/
def jslstr_byte (st : PdfState) (b : Nat) : PdfState :=
  if b = 40 then
    match h_lit_open st with
    | (true, st) => push st .u16
    | (false, st) => echo st [40]
  else if b = 41 then
    match h_lit_close st with
    | (true, st) => pop st
    | (false, st) => echo st [41]
  else echo st [b]

/-- A single byte lexed in `jshstr` (used when `h_u16_hex_break` re-feeds
the broken byte): `>` closes, a hex digit decodes, `<` opens the hex BOM
probe, anything else is skipped. -/
def jshstr_byte (st : PdfState) (b : Nat) : PdfState :=
  if b = 62 then pop st
  else
    match hex_val b with
    | some v => h_hex_hex2chr st [v]
    | none => if b = 60 then push st .u16hex else st

/-- One rule firing: dispatch on the current start condition and the
matched token, mirroring the rule table of `pdf_tokenizer.l` (including the
`yyless(0)` re-dispatches, inlined).  Combinations no rule matches fall to
the global `<*>.|\n` rule and return `UNEXPECTED_SYMBOL` — except inside
`dictnr`, where `OBJ_DICT_SKIP` silently consumes anything unmatched. -/
def pdf_step (st : PdfState) (t : Tok) : Except PDFRet PdfState :=
  match st.cond, t with
  -- INITIAL: {SKIP} {COMMENT} and the indirect-object header
  | .INITIAL, .tSkip => .ok st
  | .INITIAL, .tComment => .ok st
  | .INITIAL, .tIndObjOpen v => .ok (h_ind_obj_open (push st .indobj) v)
  -- indobj
  | .indobj, .tComment => .ok st
  | .indobj, .tWhitespace => .ok st
  | .indobj, .tIndObjClose => .ok (h_ind_obj_close (pop st))
  | .indobj, .tStreamOpen =>
    match h_stream_open st with
    | .error e => .error e
    | .ok st => .ok (push st (if st.obj_stream_is_js then .u16 else .stream))
  | .indobj, .tDictOpen => .ok (h_dict_open (push st .dictnr))
  | .indobj, .tLitStrOpen =>
    match h_lit_open st with
    | (true, st) => .ok (push st .litstr)
    | (false, st) => .ok st
  | .indobj, .tHexStrOpen => .ok (push st .hexstr)
  -- stream / jsstream / jsstreamu16 bodies
  | .stream, .tStreamSkip bs => .ok (h_stream st bs.length)
  | .stream, .tByte _ => .ok (h_stream st 1)
  | .jsstream, .tStreamSkip bs => .ok (echo (h_stream st bs.length) bs)
  | .jsstream, .tByte b => .ok (echo (h_stream st 1) [b])
  | .jsstreamu16, .tStreamSkip bs => h_lit_u16 (h_stream st bs.length) bs
  | .jsstreamu16, .tByte b => h_lit_u16 (h_stream st 1) [b]
  | .stream, .tStreamClose text =>
    match h_stream_close st text with
    | (true, st) => .ok (pop st)
    | (false, st) => .ok st
  | .jsstream, .tStreamClose text =>
    match h_stream_close st text with
    | (true, st) => .ok (pop st)
    | (false, st) => .ok st
  | .jsstreamu16, .tStreamClose text =>
    match h_stream_close st text with
    | (true, st) => .ok (pop st)
    | (false, st) => .ok st
  -- dictnr
  | .dictnr, .tDictOpen => .ok (h_dict_open (push st .dictnr))
  | .dictnr, .tDictClose => h_dict_close (pop st)
  | .dictnr, .tComment => .ok st
  | .dictnr, .tWhitespace => .ok st
  | .dictnr, .tRef v =>
    match h_dict_other st with
    | .error e => .error e
    | .ok st => .ok (h_ref st v)
  | .dictnr, .tBoolean => h_dict_other st
  | .dictnr, .tIntNum v =>
    match h_dict_other st with
    | .error e => .error e
    | .ok st => .ok (h_stream_length st v)
  | .dictnr, .tRelNum => h_dict_other st
  | .dictnr, .tNull => h_dict_other st
  | .dictnr, .tName s => .ok (h_dict_name st s)
  | .dictnr, .tArrayOpen =>
    h_dict_other { st with obj_array_nesting := st.obj_array_nesting + 1 }
  | .dictnr, .tArrayClose =>
    h_dict_other { st with obj_array_nesting := st.obj_array_nesting - 1 }
  | .dictnr, .tLitStrOpen =>
    -- EXEC(h_dict_other()); PUSH(jslstr or litstr); yyless(0) re-lexes the
    -- '(' in the pushed state, where it hits that state's paren-open rule
    match h_dict_other st with
    | .error e => .error e
    | .ok st =>
      if h_lit_str st then
        match h_lit_open (push st .jslstr) with
        | (true, st) => .ok (push st .u16)
        | (false, st) => .ok (echo st [40])
      else
        match h_lit_open (push st .litstr) with
        | (_, st) => .ok st
  | .dictnr, .tHexStrOpen =>
    -- EXEC(h_dict_other()); PUSH(jshstr or hexstr); yyless(0) re-lexes the
    -- '<': in jshstr it pushes the u16hex probe, in hexstr it is skipped
    match h_dict_other st with
    | .error e => .error e
    | .ok st =>
      if h_hex_str st then .ok (push (push st .jshstr) .u16hex)
      else .ok (push st .hexstr)
  | .dictnr, _ => .ok st  -- OBJ_DICT_SKIP
  -- litstr (non-JS literal string: consumed and discarded)
  | .litstr, .tLitStrOpen => .ok (h_lit_open st).2
  | .litstr, .tLitStrClose =>
    match h_lit_close st with
    | (true, st) => .ok (pop st)
    | (false, st) => .ok st
  | .litstr, .tLitStrEsc _ => .ok st
  | .litstr, .tLitStrEscOct _ => .ok st
  | .litstr, .tLitStrEscEol => .ok st
  | .litstr, .tLitStrEol _ => .ok st
  | .litstr, .tLitStrBody _ => .ok st
  | .litstr, .tByte b =>
    if b = 40 then .ok (h_lit_open st).2
    else if b = 41 then
      match h_lit_close st with
      | (true, st) => .ok (pop st)
      | (false, st) => .ok st
    else .ok st
  -- hexstr (non-JS hex string: consumed and discarded)
  | .hexstr, .tHexStrClose => .ok (pop st)
  | .hexstr, .tHexBody _ => .ok st
  | .hexstr, .tHexSkip => .ok st
  | .hexstr, .tByte b => if b = 62 then .ok (pop st) else .ok st
  -- jslstr (JS literal string: decoded and emitted)
  | .jslstr, .tLitStrOpen =>
    match h_lit_open st with
    | (true, st) => .ok (push st .u16)
    | (false, st) => .ok (echo st [40])
  | .jslstr, .tLitStrClose =>
    match h_lit_close st with
    | (true, st) => .ok (pop st)
    | (false, st) => .ok (echo st [41])
  | .jslstr, .tLitStrEsc c => .ok (h_lit_unescape st c)
  | .jslstr, .tLitStrEscOct v => .ok (h_lit_oct2chr st v)
  | .jslstr, .tLitStrEscEol => .ok st
  | .jslstr, .tLitStrEol bs => .ok (echo st bs)
  | .jslstr, .tLitStrBody bs => .ok (echo st bs)
  | .jslstr, .tByte b => .ok (jslstr_byte st b)
  -- u16 probe after '(' of a JS literal string or a JS stream open
  | .u16, .tU16Bom => .ok (h_u16_start st)
  | .u16, .tByte b =>
    -- h_u16_break(); yyless(0): the byte is re-lexed in the restored state
    let st := h_u16_break st
    match st.cond with
    | .jsstream => .ok (echo (h_stream st 1) [b])
    | .jslstr => .ok (jslstr_byte st b)
    | _ => .ok st
  -- jsstru16 (UTF-16BE JS literal string)
  | .jsstru16, .tLitStrClose =>
    match h_lit_close st with
    | (true, st) => .ok (pop st)
    | (false, st) => .ok st
  | .jsstru16, .tLitStrEscEol => .ok st
  | .jsstru16, .tLitStrU16Unesc c => h_lit_u16_unescape st c
  | .jsstru16, .tLitStrBody bs => h_lit_u16 st bs
  | .jsstru16, .tByte b =>
    if b = 41 then
      match h_lit_close st with
      | (true, st) => .ok (pop st)
      | (false, st) => .ok st
    else if b = 40 then .error .UNEXPECTED_SYMBOL  -- no jsstru16 rule matches '('
    else h_lit_u16 st [b]
  -- jshstr (JS hex string)
  | .jshstr, .tHexStrOpen => .ok (push st .u16hex)
  | .jshstr, .tHexStrClose => .ok (pop st)
  | .jshstr, .tHexBody nibs => .ok (h_hex_hex2chr st nibs)
  | .jshstr, .tHexSkip => .ok st
  | .jshstr, .tByte b => .ok (jshstr_byte st b)
  -- u16hex probe after '<' of a JS hex string
  | .u16hex, .tU16BomHex => .ok (h_u16_hex_start st)
  | .u16hex, .tByte b =>
    -- h_u16_hex_break(); yyless(0): byte re-lexed in jshstr
    .ok (jshstr_byte (h_u16_hex_break st) b)
  -- jshstru16 (UTF-16BE JS hex string)
  | .jshstru16, .tHexStrClose => .ok (pop st)
  | .jshstru16, .tHexBody nibs => h_hex_hex2chr_u16 st nibs
  | .jshstru16, .tHexSkip => .ok st
  | .jshstru16, .tByte b =>
    if b = 62 then .ok (pop st)
    else
      match hex_val b with
      | some v => h_hex_hex2chr_u16 st [v]
      | none => .ok st
  -- <*>.|\n
  | _, _ => .error .UNEXPECTED_SYMBOL

/-- The lexing loop of `yylex` as driven by `PDFTokenizer::process()`:
fire rules until a handler returns an error, or until end of input, where
the `<*><<EOF>>` rule returns `EOS` for every start condition.  Returns
the final `PDFRet` and the state (with the output sink). -/
def pdfLex (st : PdfState) : List Tok → PDFRet × PdfState
  | [] => (.EOS, st)
  | t :: ts =>
    match pdf_step st t with
    | .error e => (e, st)
    | .ok st2 => pdfLex st2 ts

/-- `PDFTokenizer::process()` on a whole token stream from a fresh
tokenizer. -/
def process (ts : List Tok) : PDFRet × PdfState :=
  pdfLex pdf_initial ts

/-- True when no rule firing in the run returns an error. -/
def steps_all_ok (st : PdfState) : List Tok → Bool
  | [] => true
  | t :: ts =>
    match pdf_step st t with
    | .error _ => false
    | .ok st2 => steps_all_ok st2 ts

/-! ### Claim theorems -/

/-- C2: `u16_eval` assembles consecutive input bytes into 16-bit units; a
unit below `0xd800` is emitted directly as a code point; any other unit is
treated as a high surrogate (subtract `0xd800`, multiply by `0x400`) and
the following unit must be at least `0xdc00` — otherwise `u16_eval`
returns `UNEXPECTED_SYMBOL` — else the code point
`(high ||| (low − 0xdc00)) + 0x10000` is emitted; in particular a JS
literal string with bytes `FE FF D8 34 DD 1E` (the BOM consumed by the
`u16` probe, the rest fed to `u16_eval`) produces exactly the UTF-8 bytes
`F0 9D 84 9E` (code point U+1D11E). -/
theorem c2_u16_surrogate_decoding (b1 b2 b3 b4 : Nat) :
    ((b1 <<< 8) ||| b2 < 0xd800 →
      u16_eval_list u16_initial [b1, b2] =
        .ok (⟨0, (b1 <<< 8) ||| b2, 0⟩, [(b1 <<< 8) ||| b2])) ∧
    (0xd800 ≤ (b1 <<< 8) ||| b2 → (b3 <<< 8) ||| b4 < 0xdc00 →
      u16_eval_list u16_initial [b1, b2, b3, b4] = .error .UNEXPECTED_SYMBOL) ∧
    (0xd800 ≤ (b1 <<< 8) ||| b2 → 0xdc00 ≤ (b3 <<< 8) ||| b4 →
      u16_eval_list u16_initial [b1, b2, b3, b4] =
        .ok (⟨0, (((b1 <<< 8) ||| b2) - 0xd800) * 0x400, ((b3 <<< 8) ||| b4) - 0xdc00⟩,
          [((((b1 <<< 8) ||| b2) - 0xd800) * 0x400 ||| (((b3 <<< 8) ||| b4) - 0xdc00))
            + 0x10000])) ∧
    (process [Tok.tIndObjOpen 1, Tok.tDictOpen, Tok.tName "/JS", Tok.tLitStrOpen,
        Tok.tU16Bom, Tok.tLitStrBody [0xd8, 0x34, 0xdd, 0x1e], Tok.tLitStrClose]).1
      = .EOS ∧
    (process [Tok.tIndObjOpen 1, Tok.tDictOpen, Tok.tName "/JS", Tok.tLitStrOpen,
        Tok.tU16Bom, Tok.tLitStrBody [0xd8, 0x34, 0xdd, 0x1e], Tok.tLitStrClose]).2.out
      = [0xf0, 0x9d, 0x84, 0x9e] := by
  refine ⟨fun h => ?_, fun h1 h2 => ?_, fun h1 h2 => ?_, by decide, by decide⟩
  · simp only [u16_eval_list, u16_eval, u16_initial]
    rw [if_pos h]
    rfl
  · simp only [u16_eval_list, u16_eval, u16_initial]
    rw [if_neg (by omega)]
    dsimp only
    rw [if_pos h2]
  · simp only [u16_eval_list, u16_eval, u16_initial]
    rw [if_neg (by omega)]
    dsimp only
    rw [if_neg (by omega)]
    rfl

/-- C2, witness: the surrogate pair `D8 34 DD 1E` decodes to the single
code point U+1D11E. -/
theorem c2_u16_surrogate_decoding_witness :
    0xd800 ≤ (0xd8 <<< 8) ||| 0x34 ∧
    0xdc00 ≤ (0xdd <<< 8) ||| 0x1e ∧
    u16_eval_list u16_initial [0xd8, 0x34, 0xdd, 0x1e] =
      .ok (⟨0, 0xd000, 0x11e⟩, [0x1d11e]) :=
  ⟨by decide, by decide,
    (c2_u16_surrogate_decoding 0xd8 0x34 0xdd 0x1e).2.2.1 (by decide) (by decide)⟩

/-- C6: "every code point value that `u16_eval` passes to `u16_to_u8` is at
most `0x1fffff`, so the assertion can never fire" is the intent of the
code's own `assert(code <= 0x1fffff)`, but the code violates it: `u16_eval`
treats *any* unit at or above `0xd800` — including `0xffff` — as a high
surrogate and never masks the low part, so the UTF-16 content bytes
`FF FF FF FF` (reachable through a JS string after the BOM) make it pass
`(0xffff − 0xd800)·0x400 ||| (0xffff − 0xdc00) + 0x10000 = 0xa0ffff` to
`u16_to_u8`, firing the assertion (with `NDEBUG`, nothing is written). -/
theorem c6_u16_code_point_overflow :
    u16_eval_list u16_initial [0xff, 0xff, 0xff, 0xff] =
      .ok (⟨0, 0x9ffc00, 0x23ff⟩, [0xa0ffff]) ∧
    ¬ (0xa0ffff ≤ 0x1fffff) ∧
    u16_to_u8 0xa0ffff = [] ∧
    (process [Tok.tIndObjOpen 1, Tok.tDictOpen, Tok.tName "/JS", Tok.tLitStrOpen,
      Tok.tU16Bom, Tok.tLitStrBody [0xff, 0xff, 0xff, 0xff], Tok.tLitStrClose]).1
      = .EOS :=
  ⟨rfl, by decide, rfl, by decide⟩

/-- C8, counterexample: the claim "`h_dict_close` returns
`IncompleteArrayInDictionary` exactly when the array nesting level at
dictionary close differs from the level at which the dictionary opened"
fails on the code, which clears `obj_dictionary` *before* the comparison.
In `1 0 obj << /A [ << >> ...`, the inner dictionary opens at array level 1
(recorded in `obj_dictionary.array_level`) and closes at array level 1,
yet `h_dict_close` returns `INCOMPLETE_ARRAY_IN_DICTIONARY`. -/
theorem c8_dict_close_counterexample :
    (pdfLex pdf_initial [Tok.tIndObjOpen 1, Tok.tDictOpen, Tok.tName "/A",
      Tok.tArrayOpen, Tok.tDictOpen]).1 = .EOS ∧
    (pdfLex pdf_initial [Tok.tIndObjOpen 1, Tok.tDictOpen, Tok.tName "/A",
      Tok.tArrayOpen, Tok.tDictOpen]).2.obj_array_nesting = 1 ∧
    (pdfLex pdf_initial [Tok.tIndObjOpen 1, Tok.tDictOpen, Tok.tName "/A",
      Tok.tArrayOpen, Tok.tDictOpen]).2.obj_dictionary.array_level = 1 ∧
    (pdfLex pdf_initial [Tok.tIndObjOpen 1, Tok.tDictOpen, Tok.tName "/A",
      Tok.tArrayOpen, Tok.tDictOpen, Tok.tDictClose]).1
      = .INCOMPLETE_ARRAY_IN_DICTIONARY := by decide

/-- C8, amended: `h_dict_close` returns `IncompleteArrayInDictionary`
exactly when `obj_array.nesting_level` is nonzero at the close (the
comparison happens after `obj_dictionary.clear()` resets `array_level` to
0); for a dictionary opened outside any array (level 0, as recorded by
`h_dict_open`) this coincides with the claimed condition "nesting at close
differs from the opening level". -/
theorem c8_dict_close_zero_level (st0 st2 : PdfState)
    (hlvl : st0.obj_array_nesting = 0) :
    (h_dict_close st2 = .error .INCOMPLETE_ARRAY_IN_DICTIONARY ↔
      st2.obj_array_nesting ≠ (h_dict_open st0).obj_dictionary.array_level) := by
  unfold h_dict_open h_dict_close
  dsimp only
  rw [hlvl]
  simp only [ObjDictionary.clear]
  by_cases hn : st2.obj_array_nesting = 0
  · rw [if_neg (by omega)]
    simp [hn]
  · rw [if_pos (by omega)]
    simp [hn]

/-- C8, witness: closing at array level 1 a dictionary opened at level 0 is
exactly the error case. -/
theorem c8_dict_close_zero_level_witness :
    (h_dict_close { pdf_initial with obj_array_nesting := 1 }
        = .error .INCOMPLETE_ARRAY_IN_DICTIONARY) ↔
      ({ pdf_initial with obj_array_nesting := 1 } : PdfState).obj_array_nesting
        ≠ (h_dict_open pdf_initial).obj_dictionary.array_level :=
  c8_dict_close_zero_level pdf_initial { pdf_initial with obj_array_nesting := 1 } rfl

/-- C9, counterexample: the claim "a single `'\n'` byte is written to the
output immediately after the stream body (whatever its encoding)" fails for
UTF-16BE JS streams: `h_stream_close` appends the newline only when the
start condition is `jsstream`, not `jsstreamu16`.  A JS stream whose body
is `FE FF D8 34 DD 1E` (UTF-16BE BOM plus one surrogate pair) is emitted
as `F0 9D 84 9E` with no newline after it. -/
theorem c9_u16_stream_no_newline :
    (pdfLex pdf_initial [Tok.tIndObjOpen 1, Tok.tDictOpen, Tok.tName "/JS", Tok.tRef 4,
      Tok.tDictClose, Tok.tIndObjClose, Tok.tIndObjOpen 4, Tok.tDictOpen,
      Tok.tName "/Length", Tok.tIntNum 6, Tok.tDictClose, Tok.tStreamOpen, Tok.tU16Bom,
      Tok.tStreamSkip [0xd8, 0x34, 0xdd, 0x1e],
      Tok.tStreamClose [10, 101, 110, 100, 115, 116, 114, 101, 97, 109]]).1 = .EOS ∧
    (pdfLex pdf_initial [Tok.tIndObjOpen 1, Tok.tDictOpen, Tok.tName "/JS", Tok.tRef 4,
      Tok.tDictClose, Tok.tIndObjClose, Tok.tIndObjOpen 4, Tok.tDictOpen,
      Tok.tName "/Length", Tok.tIntNum 6, Tok.tDictClose, Tok.tStreamOpen, Tok.tU16Bom,
      Tok.tStreamSkip [0xd8, 0x34, 0xdd, 0x1e],
      Tok.tStreamClose [10, 101, 110, 100, 115, 116, 114, 101, 97, 109]]).2.out
      = [0xf0, 0x9d, 0x84, 0x9e] := by decide

/-- C9, amended: when the stream is exhausted at `endstream`,
`h_stream_close` appends a single `'\n'` to the output for an 8-bit JS
stream (`jsstream`), while a UTF-16BE JS stream (`jsstreamu16`) is closed
with no terminator written. -/
theorem c9_stream_close_newline (st : PdfState) (text : List Nat) :
    (st.cond = .jsstream → st.obj_stream_rem_length - (text.length : Int) ≤ 0 →
      (h_stream_close st text).1 = true ∧
      (h_stream_close st text).2.out = st.out ++ [10]) ∧
    (st.cond = .jsstreamu16 → st.obj_stream_rem_length - (text.length : Int) ≤ 0 →
      (h_stream_close st text).1 = true ∧
      (h_stream_close st text).2.out = st.out) := by
  unfold h_stream_close echo
  dsimp only
  refine ⟨fun hc hr => ?_, fun hc hr => ?_⟩
  · rw [if_pos hr, if_pos hc]
    exact ⟨rfl, rfl⟩
  · rw [if_pos hr, if_neg (by rw [hc]; decide)]
    exact ⟨rfl, rfl⟩

/-- C9, witness: an exhausted 8-bit JS stream gets its newline. -/
theorem c9_stream_close_newline_witness :
    (h_stream_close { pdf_initial with cond := .jsstream, obj_stream_rem_length := 5 }
      [10, 101, 110, 100, 115, 116, 114, 101, 97, 109]).1 = true ∧
    (h_stream_close { pdf_initial with cond := .jsstream, obj_stream_rem_length := 5 }
      [10, 101, 110, 100, 115, 116, 114, 101, 97, 109]).2.out
      = ({ pdf_initial with cond := .jsstream, obj_stream_rem_length := 5 } : PdfState).out
        ++ [10] :=
  (c9_stream_close_newline
    { pdf_initial with cond := .jsstream, obj_stream_rem_length := 5 }
    [10, 101, 110, 100, 115, 116, 114, 101, 97, 109]).1 rfl (by decide)

/-- C10: whenever end of input is reached without a handler having returned
an error, `process()` returns `Eos`, regardless of the current start
condition — the `<*><<EOF>>` rule covers every state — so truncated
constructs at end of input (mid literal string, mid hex string, mid
dictionary, mid indirect object, mid stream body) are never reported as an
error. -/
theorem c10_eof_returns_eos (st : PdfState) (ts : List Tok) :
    (steps_all_ok st ts = true → (pdfLex st ts).1 = .EOS) ∧
    (pdfLex pdf_initial [Tok.tIndObjOpen 1, Tok.tLitStrOpen, Tok.tLitStrBody [65]]).1
      = .EOS ∧
    (pdfLex pdf_initial [Tok.tIndObjOpen 1, Tok.tHexStrOpen, Tok.tHexBody [1, 2]]).1
      = .EOS ∧
    (pdfLex pdf_initial [Tok.tIndObjOpen 1, Tok.tDictOpen, Tok.tName "/A"]).1 = .EOS ∧
    (pdfLex pdf_initial [Tok.tIndObjOpen 1, Tok.tDictOpen, Tok.tName "/Length",
      Tok.tIntNum 5, Tok.tDictClose, Tok.tStreamOpen, Tok.tStreamSkip [66, 67]]).1
      = .EOS := by
  refine ⟨?_, by decide, by decide, by decide, by decide⟩
  induction ts generalizing st with
  | nil => intro _; rfl
  | cons t ts ih =>
    intro h
    simp only [pdfLex]
    rcases hs : pdf_step st t with e | st2
    · simp only [steps_all_ok, hs] at h
      exact Bool.noConfusion h
    · simp only [hs]
      exact ih st2 (by simp only [steps_all_ok, hs] at h; exact h)

/-- C10, witness: a run whose single rule firing succeeds ends in `Eos`. -/
theorem c10_eof_returns_eos_witness :
    (pdfLex pdf_initial [Tok.tSkip]).1 = PDFRet.EOS :=
  (c10_eof_returns_eos pdf_initial [Tok.tSkip]).1 (by decide)

end PDFTok
